import Mathlib

/-!
# Verification of the Dorking Quack dork runner (`dorking_quack.py`)

A shallow embedding of the program's core: the per-dork retry/pagination
worker (`process_dork`), the result sink that appends per-category URL
files and rewrites the combined `all_urls.txt`, the account-endpoint
response parsing (`fetch_serpapi_account`), and the control flow of
`main` (dork loading, quota determination, credit projection, hard-cap
gate, user confirmation, dispatch).

URLs are opaque strings compared by exact equality; URL sets are
`Finset String`.  File contents are lists of lines.  Network calls are
modelled by oracles supplied as inputs: a search oracle mapping
(task, page, attempt) to `some urls` on success or `none` on failure,
and an optional account response.  Machine integers of the source are
`ℤ` (CLI integers) and `ℕ` (counts); floats that only feed displayed
percentages are `ℚ`.
-/

namespace DorkingQuack

/-! ## Configuration constants (`CONFIG` section of the source) -/

def NUM_PER_PAGE : ℕ := 100

def DEFAULT_THREADS : ℤ := 8

def DEFAULT_PAGES : ℤ := 1

def DEFAULT_QUOTA : ℤ := 250

def RETRIES : ℕ := 3

def BACKOFF : ℚ := 2

/-! ## Result sink (the `as_completed` consumption loop of `main`)

One completed future either yields `(category, dork, urls)` or raises
(caught at `fut.result()` and skipped).  The loop appends the new,
lexicographically sorted URLs to the category's `urls.txt` and rewrites
`all_urls.txt` with the sorted accumulated global set. -/

/-- Outcome of one completed future: `ok` carries the triple returned by
`process_dork`; `err` models `fut.result()` raising (caught and skipped). -/
inductive WorkerOutcome where
  | ok (category dork : String) (urls : Finset String)
  | err
deriving DecidableEq

/-- The URL set a worker outcome contributes (`err` contributes nothing). -/
def urlsOf : WorkerOutcome → Finset String
  | .ok _ _ urls => urls
  | .err => ∅

/-- State of the output files: per-category `urls.txt` contents, the
in-memory `all_urls_global` set, and the `all_urls.txt` contents. -/
structure SinkState where
  catFiles : String → List String
  allUrls : Finset String
  combinedFile : List String

/-- Lines 286-303 of the source: read the category file, keep only URLs
not already present, append them sorted. -/
def recordCategory (file : List String) (urls : Finset String) : List String :=
  file ++ (urls.filter fun u => u ∉ file.toFinset).sort (· ≤ ·)

/-- One iteration of the consumption loop (lines 278-319): update the
category file, merge into the global set, rewrite the combined file
with the sorted global set.  A raising future is skipped. -/
def consumeStep (s : SinkState) (w : WorkerOutcome) : SinkState :=
  match w with
  | .err => s
  | .ok cat _ urls =>
      let all' := s.allUrls ∪ urls
      { catFiles := fun c => if c = cat then recordCategory (s.catFiles cat) urls else s.catFiles c
        allUrls := all'
        combinedFile := all'.sort (· ≤ ·) }

/-- Fresh output state: no files written yet, empty global set. -/
def initSink : SinkState := ⟨fun _ => [], ∅, []⟩

/-- The whole consumption loop over the completion-ordered outcomes. -/
def runSink (ws : List WorkerOutcome) : SinkState := ws.foldl consumeStep initSink

/-! ### Sink lemmas -/

theorem consumeStep_allUrls (s : SinkState) (w : WorkerOutcome) :
    (consumeStep s w).allUrls = s.allUrls ∪ urlsOf w := by
  cases w with
  | err => simp [consumeStep, urlsOf]
  | ok c d urls => rfl

theorem foldl_consumeStep_allUrls (ws : List WorkerOutcome) (s : SinkState) :
    (ws.foldl consumeStep s).allUrls = ws.foldl (fun a w => a ∪ urlsOf w) s.allUrls := by
  induction ws generalizing s with
  | nil => rfl
  | cons w ws ih => simp only [List.foldl_cons, ih, consumeStep_allUrls]

theorem foldl_consumeStep_combined (ws : List WorkerOutcome) (s : SinkState)
    (hs : s.combinedFile = s.allUrls.sort (· ≤ ·)) :
    (ws.foldl consumeStep s).combinedFile = (ws.foldl consumeStep s).allUrls.sort (· ≤ ·) := by
  induction ws generalizing s with
  | nil => simpa using hs
  | cons w ws ih =>
      cases w with
      | err => exact ih s hs
      | ok c d urls => exact ih _ rfl

theorem foldl_union_perm {α : Type} [DecidableEq α] {l₁ l₂ : List (Finset α)}
    (h : l₁.Perm l₂) (a : Finset α) :
    l₁.foldl (· ∪ ·) a = l₂.foldl (· ∪ ·) a := by
  induction h generalizing a with
  | nil => rfl
  | cons x _ ih => simp only [List.foldl_cons]; exact ih _
  | swap x y l => simp only [List.foldl_cons, Finset.union_right_comm]
  | trans _ _ ih₁ ih₂ => exact (ih₁ a).trans (ih₂ a)

/-! ### C1 / C2 theorems -/

/-- C1: for every run, the final `all_urls.txt` content is exactly the
lexicographically sorted, deduplicated union of the URL sets delivered by
the completed tasks, and it is invariant under permutation of the
completion order. -/
theorem combined_file_sorted_union (ws ws' : List WorkerOutcome) (h : ws.Perm ws') :
    (runSink ws).combinedFile = (ws.foldl (fun a w => a ∪ urlsOf w) ∅).sort (· ≤ ·) ∧
    (runSink ws).combinedFile = (runSink ws').combinedFile := by
  have key : ∀ l : List WorkerOutcome,
      (runSink l).combinedFile = (l.foldl (fun a w => a ∪ urlsOf w) ∅).sort (· ≤ ·) := by
    intro l
    have h1 := foldl_consumeStep_combined l initSink (by simp [initSink])
    rw [runSink] at *
    rw [h1, foldl_consumeStep_allUrls]
    rfl
  refine ⟨key ws, ?_⟩
  rw [key ws, key ws']
  congr 1
  rw [← List.foldl_map urlsOf (· ∪ ·), ← List.foldl_map urlsOf (· ∪ ·)]
  exact foldl_union_perm (h.map urlsOf) ∅

/-- Completion order A for the C1 witness run. -/
def c1Left : List WorkerOutcome :=
  [.ok "Files" "d1" {"http://a", "http://b"}, .err, .ok "Admin" "d2" {"http://b", "http://c"}]

/-- Completion order B for the C1 witness run: a permutation of A. -/
def c1Right : List WorkerOutcome :=
  [.ok "Admin" "d2" {"http://b", "http://c"}, .ok "Files" "d1" {"http://a", "http://b"}, .err]

theorem combined_file_sorted_union_witness :
    c1Left.Perm c1Right ∧
    ((runSink c1Left).combinedFile
        = (c1Left.foldl (fun a w => a ∪ urlsOf w) ∅).sort (· ≤ ·) ∧
      (runSink c1Left).combinedFile = (runSink c1Right).combinedFile) :=
  ⟨by decide, combined_file_sorted_union c1Left c1Right (by decide)⟩

/-- C2: recording the same URL set `S` twice for the same category leaves
the category's `urls.txt` without duplicate lines, and its line count is
the cardinality of the union of everything recorded (here `S ∪ S = S`). -/
theorem category_dedup_idempotent (c d₁ d₂ : String) (S : Finset String) :
    ((runSink [.ok c d₁ S, .ok c d₂ S]).catFiles c).Nodup ∧
    ((runSink [.ok c d₁ S, .ok c d₂ S]).catFiles c).length = S.card := by
  have hstep : ∀ (s : SinkState) (d : String) (urls : Finset String),
      (consumeStep s (.ok c d urls)).catFiles c = recordCategory (s.catFiles c) urls := by
    intro s d urls
    show (if c = c then recordCategory (s.catFiles c) urls else s.catFiles c) = _
    rw [if_pos rfl]
  have h0 : recordCategory [] S = S.sort (· ≤ ·) := by
    rw [recordCategory, List.nil_append]
    congr 1
    rw [Finset.filter_true_of_mem]
    intro x _
    simp only [List.toFinset_nil, Finset.not_mem_empty, not_false_iff]
  have h1 : recordCategory (S.sort (· ≤ ·)) S = S.sort (· ≤ ·) := by
    have hf : (S.filter fun u => u ∉ (S.sort (· ≤ ·)).toFinset) = ∅ := by
      rw [Finset.filter_eq_empty_iff]
      intro x hx
      rw [Finset.sort_toFinset, not_not]
      exact hx
    rw [recordCategory, hf, Finset.sort_empty, List.append_nil]
  have hfile : (runSink [.ok c d₁ S, .ok c d₂ S]).catFiles c = S.sort (· ≤ ·) := by
    rw [runSink, List.foldl_cons, List.foldl_cons, List.foldl_nil, hstep, hstep]
    rw [show initSink.catFiles c = [] from rfl, h0, h1]
  rw [hfile]
  exact ⟨Finset.sort_nodup _ _, Finset.length_sort _⟩

theorem category_dedup_idempotent_witness :
    ((runSink [.ok "Files" "d1" ({"http://a", "http://b"} : Finset String),
        .ok "Files" "d2" {"http://a", "http://b"}]).catFiles "Files").Nodup ∧
    ((runSink [.ok "Files" "d1" ({"http://a", "http://b"} : Finset String),
        .ok "Files" "d2" {"http://a", "http://b"}]).catFiles "Files").length
      = ({"http://a", "http://b"} : Finset String).card :=
  category_dedup_idempotent "Files" "d1" "d2" {"http://a", "http://b"}

/-! ## Query executor (`process_dork`, lines 136-161)

A page's search attempts are modelled by an oracle mapping the attempt
counter to `some urls` (successful request plus extraction) or `none`
(any exception: network error or non-success status).  The embedding
records the URLs found, the number of requests issued, and the backoff
sleeps performed. -/

/-- Result of running the retry loop of one page (the `while attempt <= RETRIES`
loop): the extracted URLs if some attempt succeeded, the number of
`serpapi_search` calls made, and the backoff delays slept. -/
structure PageRun where
  result : Option (Finset String)
  requests : ℕ
  backoffs : List ℚ
deriving DecidableEq

/-- The retry loop body, structurally recursing on the remaining attempts
(`fuel` starts at `RETRIES + 1 - attempt`, matching `while attempt <= RETRIES`).
On failure the attempt counter is incremented; if it now exceeds `RETRIES`
the page is given up, otherwise the loop sleeps `BACKOFF ^ attempt` and
retries. -/
def pageAttempts (oracle : ℕ → Option (Finset String)) : ℕ → ℕ → PageRun
  | _, 0 => ⟨none, 0, []⟩
  | attempt, fuel + 1 =>
      match oracle attempt with
      | some urls => ⟨some urls, 1, []⟩
      | none =>
          if attempt + 1 > RETRIES then ⟨none, 1, []⟩
          else
            let rest := pageAttempts oracle (attempt + 1) fuel
            ⟨rest.result, rest.requests + 1, BACKOFF ^ (attempt + 1) :: rest.backoffs⟩

/-- One page of one dork: attempts start at counter `0` with
`RETRIES + 1` loop iterations available. -/
def runPage (oracle : ℕ → Option (Finset String)) : PageRun :=
  pageAttempts oracle 0 (RETRIES + 1)

/-- The URLs a page contributes: its extracted set on success, nothing if
every attempt failed. -/
def pageUrls (oracle : ℕ → Option (Finset String)) : Finset String :=
  (runPage oracle).result.getD ∅

/-- Accumulated outcome of `process_dork`: the `found` URL set and the
effect counters. -/
structure DorkRun where
  found : Finset String
  requests : ℕ
  backoffs : List ℚ

/-- `process_dork`: fetch `pages` pages sequentially (`for p in range(pages)`),
each through the retry loop; failed pages contribute nothing and raise
nothing.  `oracle p a` is the outcome of attempt `a` on page `p`. -/
def process_dork (pages : ℕ) (oracle : ℕ → ℕ → Option (Finset String)) : DorkRun :=
  (List.range pages).foldl
    (fun acc p =>
      let pr := runPage (oracle p)
      ⟨acc.found ∪ pr.result.getD ∅, acc.requests + pr.requests, acc.backoffs ++ pr.backoffs⟩)
    ⟨∅, 0, []⟩

theorem process_dork_found (pages : ℕ) (oracle : ℕ → ℕ → Option (Finset String)) :
    (process_dork pages oracle).found
      = (List.range pages).foldl (fun a p => a ∪ pageUrls (oracle p)) ∅ := by
  rw [process_dork]
  generalize (List.range pages) = l
  have : ∀ (l : List ℕ) (acc : DorkRun),
      (l.foldl (fun acc p =>
          let pr := runPage (oracle p)
          DorkRun.mk (acc.found ∪ pr.result.getD ∅) (acc.requests + pr.requests)
            (acc.backoffs ++ pr.backoffs)) acc).found
        = l.foldl (fun a p => a ∪ pageUrls (oracle p)) acc.found := by
    intro l
    induction l with
    | nil => intro acc; rfl
    | cons p l ih => intro acc; simp only [List.foldl_cons, ih]; rfl
  exact this l _

theorem foldl_union_skip {α : Type} [DecidableEq α] (g : ℕ → Finset α) (p₀ : ℕ)
    (hg : g p₀ = ∅) (l : List ℕ) (a : Finset α) :
    l.foldl (fun acc p => acc ∪ g p) a = (l.filter (· ≠ p₀)).foldl (fun acc p => acc ∪ g p) a := by
  induction l generalizing a with
  | nil => rfl
  | cons p l ih =>
      by_cases hp : p = p₀
      · subst hp
        have : (p :: l).filter (· ≠ p) = l.filter (· ≠ p) := by
          rw [List.filter_cons]
          simp
        rw [this, List.foldl_cons, hg, Finset.union_empty, ih]
      · have : (p :: l).filter (· ≠ p₀) = p :: l.filter (· ≠ p₀) := by
          rw [List.filter_cons]
          simp [hp]
        rw [this, List.foldl_cons, List.foldl_cons, ih]

/-- C4: a page whose requests fail on every attempt is retried exactly
`RETRIES = 3` times with backoff sleeps `[2, 4, 8]` (base `2.0`), issuing
`RETRIES + 1 = 4` requests in all; it contributes no URLs, nothing raises
out of `process_dork`, and the other pages still contribute their URLs. -/
theorem retry_exhaustion (pages : ℕ) (oracle : ℕ → ℕ → Option (Finset String)) (p₀ : ℕ)
    (hp : p₀ < pages) (hfail : oracle p₀ = fun _ => none) :
    runPage (oracle p₀) = ⟨none, RETRIES + 1, [2, 4, 8]⟩ ∧
    pageUrls (oracle p₀) = ∅ ∧
    (process_dork pages oracle).found
      = ((List.range pages).filter (· ≠ p₀)).foldl (fun a p => a ∪ pageUrls (oracle p)) ∅ := by
  have hrun : runPage (oracle p₀) = ⟨none, RETRIES + 1, [2, 4, 8]⟩ := by
    rw [hfail]
    show pageAttempts (fun _ => none) 0 (RETRIES + 1) = _
    norm_num [pageAttempts, RETRIES, BACKOFF]
  have hurls : pageUrls (oracle p₀) = ∅ := by
    rw [pageUrls, hrun]
    rfl
  refine ⟨hrun, hurls, ?_⟩
  rw [process_dork_found]
  exact foldl_union_skip (fun p => pageUrls (oracle p)) p₀ hurls (List.range pages) ∅

/-- Search oracle for the C4 witness: page 0 fails on every attempt,
every other page succeeds with one URL. -/
def c4Oracle : ℕ → ℕ → Option (Finset String) :=
  fun p _ => if p = 0 then none else some {"http://x"}

theorem retry_exhaustion_witness :
    (0 < 2 ∧ c4Oracle 0 = fun _ => none) ∧
    (runPage (c4Oracle 0) = ⟨none, RETRIES + 1, [2, 4, 8]⟩ ∧
      pageUrls (c4Oracle 0) = ∅ ∧
      (process_dork 2 c4Oracle).found
        = ((List.range 2).filter (· ≠ 0)).foldl (fun a p => a ∪ pageUrls (c4Oracle p)) ∅) :=
  ⟨⟨by decide, rfl⟩, retry_exhaustion 2 c4Oracle 0 (by decide) rfl⟩

/-! ## Account endpoint (`fetch_serpapi_account`, lines 116-133) -/

/-- Optional `plan` sub-object of the account response. -/
structure PlanData where
  searches_monthly : Option ℤ
  searches : Option ℤ
deriving DecidableEq

/-- The fields of the `/account` JSON response that `fetch_serpapi_account`
reads; `none` models an absent key.  `plan` is `none` unless the key is
present and holds an object. -/
structure AccountData where
  plan_searches_monthly : Option ℤ
  searches_performed : Option ℤ
  plan : Option PlanData
  searches_used : Option ℤ
  searches_performed_this_month : Option ℤ
deriving DecidableEq

/-- Python's `a or b` on optional integers: `None` and `0` are falsy. -/
def pyOr (x y : Option ℤ) : Option ℤ :=
  match x with
  | none => y
  | some v => if v = 0 then y else some v

/-- `fetch_serpapi_account`: `none` input models the request itself
failing (network error or `raise_for_status`); otherwise the quota and
used fields are extracted with the source's fallback chain, raising
`ValueError` when either is still missing. -/
def fetch_serpapi_account (resp : Option AccountData) : Except String (ℤ × ℤ) :=
  match resp with
  | none => .error "request failed"
  | some data =>
      let quota :=
        match data.plan_searches_monthly, data.plan with
        | none, some pl => pyOr pl.searches_monthly pl.searches
        | q, _ => q
      let used :=
        match data.searches_performed with
        | none => pyOr data.searches_used data.searches_performed_this_month
        | u => u
      match quota, used with
      | some q, some u => .ok (q, u)
      | _, _ => .error "Unexpected account response format; missing quota/used fields."

/-! ## Run coordinator (`main`, lines 164-355)

The incidental I/O around the core is supplied as collaborator inputs:
the parsed dork file (or `none` when `load_categorized_dorks` raises),
the account response, the operator's confirmation answer, the per-task
search oracle, and the `as_completed` completion order. -/

/-- The configuration values `main` consumes (the argparse surface). -/
structure Args where
  outBase : String
  threads : ℤ
  pages : ℤ
  delay : ℚ
  quota : ℤ
  used : ℤ
  maxCredits : ℤ
  autoQuota : Bool
  csv : Bool

/-- Collaborator inputs of one run. -/
structure Env where
  dorks : Option (List (String × List String))
  account : Option AccountData
  confirm : Bool
  oracle : ℕ → ℕ → ℕ → Option (Finset String)
  order : List ℕ

/-- Line 195: `pages = max(1, args.pages)`. -/
def clampPages (p : ℤ) : ℤ := max 1 p

/-- Line 196: `delay = max(0.0, float(args.delay))`. -/
def clampDelay (d : ℚ) : ℚ := max 0 d

/-- Line 228: `quota = max(1, args.quota)` (manual-quota mode). -/
def clampQuota (q : ℤ) : ℤ := max 1 q

/-- Line 229: `used = max(0, args.used)` (manual-quota mode). -/
def clampUsed (u : ℤ) : ℤ := max 0 u

/-- Lines 207-210: flatten the categorized dork mapping into the task
list of `(category, dork)` pairs, in dictionary order. -/
def mkTasks (cats : List (String × List String)) : List (String × String) :=
  cats.flatMap fun cd => cd.2.map fun d => (cd.1, d)

/-- Line 232: `credits_needed = total_dorks * pages` (with `pages` already
clamped to at least 1). -/
def creditsNeededCalc (totalDorks : ℕ) (pagesArg : ℤ) : ℤ :=
  (totalDorks : ℤ) * clampPages pagesArg

/-- Line 254: `threads = max(1, min(args.threads, total_dorks))`. -/
def effectiveThreads (requested : ℤ) (totalDorks : ℕ) : ℤ :=
  max 1 (min requested (totalDorks : ℤ))

/-- Lines 219-229: quota/used determination.  In auto-quota mode a failed
account fetch is fatal (`Except.error`); otherwise the clamped CLI values
are used. -/
def quotaStage (args : Args) (env : Env) : Except Unit (ℤ × ℤ) :=
  if args.autoQuota then
    match fetch_serpapi_account env.account with
    | .ok qu => .ok qu
    | .error _ => .error ()
  else .ok (clampQuota args.quota, clampUsed args.used)

/-- Requests made to the `/account` endpoint before dispatch: exactly one
in auto-quota mode. -/
def accountCallsPre (args : Args) : ℕ := if args.autoQuota then 1 else 0

/-- What a completed run reports (lines 236-240, 253-256, 263-319 and
349-353). -/
structure Report where
  quota : ℤ
  usedBefore : ℤ
  creditsNeeded : ℤ
  projectedUsed : ℤ
  percentAfter : ℚ
  threads : ℤ
  totalDorks : ℕ
  sink : SinkState
  afterUsed : ℤ

/-- How a run ended: each abort constructor is one of `main`'s early
`return`s, in source order. -/
inductive RunResult where
  | dorksLoadFailure
  | noTasks
  | autoQuotaFailure
  | hardCapAbort
  | userAbort
  | completed (rep : Report)

/-- A run's observable output: its result plus effect counters — the
number of `serpapi_search` requests issued, the number of `/account`
requests issued, and the directories created by `ensure_dir`. -/
structure RunOutput where
  result : RunResult
  searchCalls : ℕ
  accountCalls : ℕ
  dirs : List String

/-- The `process_dork` executions of one dispatched run, task by task. -/
def dispatchRuns (args : Args) (env : Env) (taskCount : ℕ) : List DorkRun :=
  (List.range taskCount).map fun i =>
    process_dork (clampPages args.pages).toNat (env.oracle i)

/-- What a completed run reports: the accounting of lines 231-240 and
349-353, the adjusted worker count of line 254, and the sink state after
consuming every future in completion order (lines 278-319). -/
def completedReport (args : Args) (env : Env) (cats : List (String × List String))
    (q u : ℤ) : Report :=
  let tasks := mkTasks cats
  let creditsNeeded := creditsNeededCalc tasks.length args.pages
  let runs := dispatchRuns args env tasks.length
  let outcomes := env.order.filterMap fun i =>
    ((tasks.zip runs)[i]?).map fun tr => WorkerOutcome.ok tr.1.1 tr.1.2 tr.2.found
  { quota := q
    usedBefore := u
    creditsNeeded := creditsNeeded
    projectedUsed := u + creditsNeeded
    percentAfter := (((u + creditsNeeded : ℤ) : ℚ) / (q : ℚ)) * 100
    threads := effectiveThreads args.threads tasks.length
    totalDorks := tasks.length
    sink := runSink outcomes
    afterUsed := u + creditsNeeded }

/-- The executor block (lines 258-353), reached only after every gate
passed: create the output directories, run `process_dork` for every
task, and report. -/
def completedOutput (args : Args) (env : Env) (cats : List (String × List String))
    (q u : ℤ) : RunOutput :=
  { result := .completed (completedReport args env cats q u)
    searchCalls := ((dispatchRuns args env (mkTasks cats).length).map (·.requests)).sum
    accountCalls := accountCallsPre args
    dirs := args.outBase :: cats.map fun cd => args.outBase ++ "/" ++ cd.1 }

/-- `main`'s control flow: load dorks (abort on failure), flatten, abort
on an empty task list, determine quota (abort in auto-quota mode when the
fetch fails), compute credits and abort when a nonzero `--max-credits` is
exceeded, ask for confirmation, then dispatch. -/
def mainRun (args : Args) (env : Env) : RunOutput :=
  match env.dorks with
  | none => ⟨.dorksLoadFailure, 0, 0, []⟩
  | some cats =>
      if (mkTasks cats).isEmpty then ⟨.noTasks, 0, 0, []⟩
      else
        match quotaStage args env with
        | .error _ => ⟨.autoQuotaFailure, 0, accountCallsPre args, []⟩
        | .ok (q, u) =>
            if args.maxCredits ≠ 0 ∧
                creditsNeededCalc (mkTasks cats).length args.pages > args.maxCredits then
              ⟨.hardCapAbort, 0, accountCallsPre args, []⟩
            else if env.confirm then completedOutput args env cats q u
            else ⟨.userAbort, 0, accountCallsPre args, []⟩

/-- Modelled from the spec: the Quota Store persistence is absent from the
source file (the spec's `save(used)` writing `used = used_before +
credits_needed` after dispatch completes); the source only computes and
prints `after_used = used + credits_needed` (lines 352-353).  The spec's
persisted value is the completed run's `afterUsed`; nothing is persisted
when the run aborts. -/
def persistedUsed (args : Args) (env : Env) : Option ℤ :=
  match (mainRun args env).result with
  | .completed rep => some rep.afterUsed
  | _ => none

/-! ## Quota Store -/

/-- The persisted monthly usage record. -/
structure QuotaState where
  period : String
  used : ℤ
deriving DecidableEq

/-- Modelled from the spec: the Quota Store `load()` operation is absent
from the source file (only the spec's §4.1 describes it).  It reads the
persisted state — `none` models "no state exists" and "the file is
unreadable/corrupt" alike — and returns `{period: current_period, used: 0}`
unless the stored period matches the current calendar-month period, in
which case `used` carries forward. -/
def quotaLoad (persisted : Option QuotaState) (currentPeriod : String) : QuotaState :=
  match persisted with
  | none => ⟨currentPeriod, 0⟩
  | some s => if s.period = currentPeriod then ⟨currentPeriod, s.used⟩ else ⟨currentPeriod, 0⟩

/-- C5: `load()` is a total function (it never raises); it returns
`used = 0` when no state exists or the state is corrupt, and for any
persisted state whose period differs from the current one it returns
`used = 0` regardless of the stored usage, stamping the current period. -/
theorem quota_load_resets (cur : String) (s : QuotaState) (hs : s.period ≠ cur) :
    (quotaLoad none cur).used = 0 ∧ (quotaLoad none cur).period = cur ∧
    (quotaLoad (some s) cur).used = 0 ∧ (quotaLoad (some s) cur).period = cur := by
  have h : quotaLoad (some s) cur = ⟨cur, 0⟩ := by
    show (if s.period = cur then QuotaState.mk cur s.used else ⟨cur, 0⟩) = ⟨cur, 0⟩
    rw [if_neg hs]
  rw [h]
  exact ⟨rfl, rfl, rfl, rfl⟩

theorem quota_load_resets_witness :
    (QuotaState.mk "2025-09" 42).period ≠ "2025-10" ∧
    ((quotaLoad none "2025-10").used = 0 ∧ (quotaLoad none "2025-10").period = "2025-10" ∧
      (quotaLoad (some ⟨"2025-09", 42⟩) "2025-10").used = 0 ∧
      (quotaLoad (some ⟨"2025-09", 42⟩) "2025-10").period = "2025-10") :=
  ⟨by decide, quota_load_resets "2025-10" ⟨"2025-09", 42⟩ (by decide)⟩

/-! ## Gating theorems about `mainRun` -/

/-- C8: a dork source yielding zero templates makes the run abort with the
configuration-failure indication (`"No dorks to run"`) before any network
activity or quota mutation: no search request, no account request, no
output directory, nothing persisted. -/
theorem empty_task_list_aborts (args : Args) (env : Env)
    (cats : List (String × List String))
    (hd : env.dorks = some cats) (he : mkTasks cats = []) :
    (mainRun args env).result = .noTasks ∧ (mainRun args env).searchCalls = 0 ∧
    (mainRun args env).accountCalls = 0 ∧ (mainRun args env).dirs = [] ∧
    persistedUsed args env = none := by
  have h : mainRun args env = ⟨.noTasks, 0, 0, []⟩ := by
    unfold mainRun
    rw [hd]
    simp [he]
  refine ⟨by rw [h], by rw [h], by rw [h], by rw [h], ?_⟩
  unfold persistedUsed
  rw [h]

theorem empty_task_list_aborts_witness :
    (Env.mk (some [("Files", [])]) none true (fun _ _ _ => none) []).dorks
        = some [("Files", [])] ∧
    mkTasks [("Files", [])] = [] ∧
    (let env := Env.mk (some [("Files", [])]) none true (fun _ _ _ => none) []
     let args := Args.mk "output" 8 1 (8/10) 250 0 0 false false
     (mainRun args env).result = .noTasks ∧ (mainRun args env).searchCalls = 0 ∧
       (mainRun args env).accountCalls = 0 ∧ (mainRun args env).dirs = [] ∧
       persistedUsed args env = none) :=
  ⟨rfl, rfl, empty_task_list_aborts _ _ [("Files", [])] rfl rfl⟩

/-- C6: when a hard cap is configured (nonzero `--max-credits`) and the
computed `credits_needed` exceeds it, the run aborts before any task
executes: no search request is issued, no output directory is created,
and the quota state is unchanged (nothing persisted). -/
theorem hard_cap_aborts (args : Args) (env : Env) (cats : List (String × List String))
    (q u : ℤ)
    (hd : env.dorks = some cats) (hne : (mkTasks cats).isEmpty = false)
    (hq : quotaStage args env = .ok (q, u))
    (hcap : args.maxCredits ≠ 0)
    (hx : creditsNeededCalc (mkTasks cats).length args.pages > args.maxCredits) :
    (mainRun args env).result = .hardCapAbort ∧ (mainRun args env).searchCalls = 0 ∧
    (mainRun args env).dirs = [] ∧ persistedUsed args env = none := by
  have h : mainRun args env = ⟨.hardCapAbort, 0, accountCallsPre args, []⟩ := by
    unfold mainRun
    rw [hd]
    simp [hne, hq, hcap, hx]
  refine ⟨by rw [h], by rw [h], by rw [h], ?_⟩
  unfold persistedUsed
  rw [h]

/-- Arguments for the C6 witness: two pages per dork, hard cap 10. -/
def c6Args : Args := Args.mk "output" 8 2 (8/10) 250 0 10 false false

/-- Environment for the C6 witness: six dorks in one category, so
`credits_needed = 6 * 2 = 12 > 10`. -/
def c6Env : Env :=
  Env.mk (some [("Files", ["d1", "d2", "d3", "d4", "d5", "d6"])]) none true
    (fun _ _ _ => none) [0, 1, 2, 3, 4, 5]

theorem hard_cap_aborts_witness :
    c6Env.dorks = some [("Files", ["d1", "d2", "d3", "d4", "d5", "d6"])] ∧
    (mkTasks [("Files", ["d1", "d2", "d3", "d4", "d5", "d6"])]).isEmpty = false ∧
    quotaStage c6Args c6Env = .ok (250, 0) ∧
    c6Args.maxCredits ≠ 0 ∧
    creditsNeededCalc (mkTasks [("Files", ["d1", "d2", "d3", "d4", "d5", "d6"])]).length
        c6Args.pages > c6Args.maxCredits ∧
    ((mainRun c6Args c6Env).result = .hardCapAbort ∧ (mainRun c6Args c6Env).searchCalls = 0 ∧
      (mainRun c6Args c6Env).dirs = [] ∧ persistedUsed c6Args c6Env = none) :=
  ⟨rfl, rfl, rfl, by decide, by decide,
    hard_cap_aborts c6Args c6Env _ 250 0 rfl rfl rfl (by decide) (by decide)⟩

theorem quotaStage_ignores_manual (args : Args) (env : Env) (q' u' : ℤ)
    (ha : args.autoQuota = true) :
    quotaStage { args with quota := q', used := u' } env = quotaStage args env := by
  simp [quotaStage, ha]

/-- C7: in auto-quota mode a failed account fetch (request failure or a
response missing the quota/used fields) aborts the whole run before
dispatch — no search request is issued and nothing is persisted — and
the locally configured quota/used values are never consulted as a
fallback: the run's output is identical for any `--quota`/`--used`. -/
theorem auto_quota_fail_closed (args : Args) (env : Env)
    (cats : List (String × List String)) (q' u' : ℤ)
    (ha : args.autoQuota = true)
    (hq : quotaStage args env = .error ())
    (hd : env.dorks = some cats) (hne : (mkTasks cats).isEmpty = false) :
    (mainRun args env).result = .autoQuotaFailure ∧
    (mainRun args env).searchCalls = 0 ∧
    persistedUsed args env = none ∧
    mainRun { args with quota := q', used := u' } env = mainRun args env := by
  have h : mainRun args env = ⟨.autoQuotaFailure, 0, accountCallsPre args, []⟩ := by
    unfold mainRun
    rw [hd]
    simp [hne, hq]
  have hq' : quotaStage { args with quota := q', used := u' } env = .error () := by
    rw [quotaStage_ignores_manual args env q' u' ha, hq]
  have h' : mainRun { args with quota := q', used := u' } env
      = ⟨.autoQuotaFailure, 0, accountCallsPre args, []⟩ := by
    unfold mainRun
    rw [hd]
    simp [hne, hq']
    simp [accountCallsPre]
  refine ⟨by rw [h], by rw [h], ?_, by rw [h, h']⟩
  unfold persistedUsed
  rw [h]

/-- Account response for the C7 witness: present, but missing every
quota/used field, so `fetch_serpapi_account` raises `ValueError`. -/
def c7Account : AccountData := AccountData.mk none none none none none

/-- Arguments for the C7 witness: auto-quota mode. -/
def c7Args : Args := Args.mk "output" 8 1 (8/10) 250 0 0 true false

/-- Environment for the C7 witness: one dork, malformed account response. -/
def c7Env : Env :=
  Env.mk (some [("Admin", ["d1"])]) (some c7Account) true (fun _ _ _ => none) [0]

theorem auto_quota_fail_closed_witness :
    c7Args.autoQuota = true ∧
    quotaStage c7Args c7Env = .error () ∧
    c7Env.dorks = some [("Admin", ["d1"])] ∧
    (mkTasks [("Admin", ["d1"])]).isEmpty = false ∧
    ((mainRun c7Args c7Env).result = .autoQuotaFailure ∧
      (mainRun c7Args c7Env).searchCalls = 0 ∧
      persistedUsed c7Args c7Env = none ∧
      mainRun { c7Args with quota := 9999, used := 3 } c7Env = mainRun c7Args c7Env) :=
  ⟨rfl, rfl, rfl, rfl,
    auto_quota_fail_closed c7Args c7Env [("Admin", ["d1"])] 9999 3 rfl rfl rfl rfl⟩

theorem mainRun_completes (args : Args) (env : Env) (cats : List (String × List String))
    (q u : ℤ)
    (hd : env.dorks = some cats) (hne : (mkTasks cats).isEmpty = false)
    (hq : quotaStage args env = .ok (q, u))
    (hcap : ¬(args.maxCredits ≠ 0 ∧
      creditsNeededCalc (mkTasks cats).length args.pages > args.maxCredits))
    (hc : env.confirm = true) :
    mainRun args env = completedOutput args env cats q u := by
  unfold mainRun
  rw [hd]
  simp [hne, hq, hcap, hc]

/-- C3: `credits_needed = task_count * pages_per_task` and
`projected_used = after_used = used_before + credits_needed`; after a
completed run the persisted usage is `used_before + credits_needed`
whatever the per-page outcomes and completion order were (credits are
charged for attempted pages, not successful ones). -/
theorem credit_accounting (args : Args) (env : Env) (cats : List (String × List String))
    (q u : ℤ) (oracle' : ℕ → ℕ → ℕ → Option (Finset String)) (order' : List ℕ)
    (hd : env.dorks = some cats) (hne : (mkTasks cats).isEmpty = false)
    (hq : quotaStage args env = .ok (q, u))
    (hcap : ¬(args.maxCredits ≠ 0 ∧
      creditsNeededCalc (mkTasks cats).length args.pages > args.maxCredits))
    (hc : env.confirm = true) :
    mainRun args env = completedOutput args env cats q u ∧
    (completedReport args env cats q u).creditsNeeded
      = ((mkTasks cats).length : ℤ) * clampPages args.pages ∧
    (completedReport args env cats q u).projectedUsed
      = u + creditsNeededCalc (mkTasks cats).length args.pages ∧
    (completedReport args env cats q u).percentAfter
      = (((u + creditsNeededCalc (mkTasks cats).length args.pages : ℤ) : ℚ) / (q : ℚ)) * 100 ∧
    (completedReport args env cats q u).afterUsed
      = u + creditsNeededCalc (mkTasks cats).length args.pages ∧
    persistedUsed args env
      = some (u + creditsNeededCalc (mkTasks cats).length args.pages) ∧
    persistedUsed args { env with oracle := oracle', order := order' }
      = some (u + creditsNeededCalc (mkTasks cats).length args.pages) := by
  have h := mainRun_completes args env cats q u hd hne hq hcap hc
  have h2 := mainRun_completes args { env with oracle := oracle', order := order' } cats q u
    hd hne hq hcap hc
  refine ⟨h, rfl, rfl, rfl, rfl, ?_, ?_⟩
  · unfold persistedUsed
    rw [h]
    rfl
  · unfold persistedUsed
    rw [h2]
    rfl

/-- Arguments for the C3 witness: 2 pages per dork, `--used 10`,
`--quota 250`, no hard cap, manual quota mode. -/
def c3Args : Args := Args.mk "output" 8 2 (8/10) 250 10 0 false false

/-- Environment for the C3 witness: five dorks in one category; every
search request fails, so zero pages succeed, yet the charge is full. -/
def c3Env : Env :=
  Env.mk (some [("Exposed", ["d1", "d2", "d3", "d4", "d5"])]) none true
    (fun _ _ _ => none) [0, 1, 2, 3, 4]

theorem credit_accounting_witness :
    c3Env.dorks = some [("Exposed", ["d1", "d2", "d3", "d4", "d5"])] ∧
    (mkTasks [("Exposed", ["d1", "d2", "d3", "d4", "d5"])]).isEmpty = false ∧
    quotaStage c3Args c3Env = .ok (250, 10) ∧
    ¬(c3Args.maxCredits ≠ 0 ∧
      creditsNeededCalc (mkTasks [("Exposed", ["d1", "d2", "d3", "d4", "d5"])]).length
        c3Args.pages > c3Args.maxCredits) ∧
    c3Env.confirm = true ∧
    (mainRun c3Args c3Env
        = completedOutput c3Args c3Env [("Exposed", ["d1", "d2", "d3", "d4", "d5"])] 250 10 ∧
      (completedReport c3Args c3Env [("Exposed", ["d1", "d2", "d3", "d4", "d5"])] 250 10).creditsNeeded
        = ((mkTasks [("Exposed", ["d1", "d2", "d3", "d4", "d5"])]).length : ℤ)
            * clampPages c3Args.pages ∧
      (completedReport c3Args c3Env [("Exposed", ["d1", "d2", "d3", "d4", "d5"])] 250 10).projectedUsed
        = 10 + creditsNeededCalc
            (mkTasks [("Exposed", ["d1", "d2", "d3", "d4", "d5"])]).length c3Args.pages ∧
      (completedReport c3Args c3Env [("Exposed", ["d1", "d2", "d3", "d4", "d5"])] 250 10).percentAfter
        = (((10 + creditsNeededCalc
              (mkTasks [("Exposed", ["d1", "d2", "d3", "d4", "d5"])]).length c3Args.pages : ℤ) : ℚ)
            / ((250 : ℤ) : ℚ)) * 100 ∧
      (completedReport c3Args c3Env [("Exposed", ["d1", "d2", "d3", "d4", "d5"])] 250 10).afterUsed
        = 10 + creditsNeededCalc
            (mkTasks [("Exposed", ["d1", "d2", "d3", "d4", "d5"])]).length c3Args.pages ∧
      persistedUsed c3Args c3Env
        = some (10 + creditsNeededCalc
            (mkTasks [("Exposed", ["d1", "d2", "d3", "d4", "d5"])]).length c3Args.pages) ∧
      persistedUsed c3Args { c3Env with oracle := fun _ _ _ => some {"http://ok"}, order := [4, 3, 2, 1, 0] }
        = some (10 + creditsNeededCalc
            (mkTasks [("Exposed", ["d1", "d2", "d3", "d4", "d5"])]).length c3Args.pages)) ∧
    creditsNeededCalc (mkTasks [("Exposed", ["d1", "d2", "d3", "d4", "d5"])]).length c3Args.pages
      = 10 ∧
    (10 : ℤ) + 10 = 20 ∧
    (((20 : ℤ) : ℚ) / ((250 : ℤ) : ℚ)) * 100 = 8 ∧
    persistedUsed c3Args c3Env = some 20 :=
  ⟨rfl, rfl, rfl, by decide, rfl,
    credit_accounting c3Args c3Env [("Exposed", ["d1", "d2", "d3", "d4", "d5"])] 250 10
      (fun _ _ _ => some {"http://ok"}) [4, 3, 2, 1, 0] rfl rfl rfl (by decide) rfl,
    by decide, by decide, by norm_num, by decide⟩

/-! ## Worker-count and clamping theorems -/

/-- C9 as stated fails on the code: with requested concurrency `0` and
3 tasks the source's `max(1, min(args.threads, total_dorks))` yields `1`,
not `min(0, 3) = 0`. -/
theorem effective_threads_counterexample :
    effectiveThreads 0 3 = 1 ∧ min (0 : ℤ) ((3 : ℕ) : ℤ) = 0 ∧
    effectiveThreads 0 3 ≠ min (0 : ℤ) ((3 : ℕ) : ℤ) := by
  refine ⟨rfl, rfl, ?_⟩
  decide

/-- C9 amended: the effective pool size is `max(1, min(W, N))`; whenever
the requested concurrency `W` is at least 1 (and there is at least one
task) it equals `min(W, N)` and never exceeds the task count. -/
theorem effective_threads_amended (W : ℤ) (N : ℕ) (hW : 1 ≤ W) (hN : 1 ≤ N) :
    effectiveThreads W N = max 1 (min W (N : ℤ)) ∧
    effectiveThreads W N = min W (N : ℤ) ∧
    effectiveThreads W N ≤ (N : ℤ) := by
  have h1 : (1 : ℤ) ≤ (N : ℤ) := by exact_mod_cast hN
  have hmin : (1 : ℤ) ≤ min W (N : ℤ) := le_min hW h1
  refine ⟨rfl, ?_, ?_⟩
  · rw [effectiveThreads, max_eq_right hmin]
  · rw [effectiveThreads, max_eq_right hmin]
    exact min_le_right _ _

theorem effective_threads_amended_witness :
    (1 : ℤ) ≤ 8 ∧ 1 ≤ 3 ∧
    (effectiveThreads 8 3 = max 1 (min 8 ((3 : ℕ) : ℤ)) ∧
      effectiveThreads 8 3 = min 8 ((3 : ℕ) : ℤ) ∧
      effectiveThreads 8 3 ≤ ((3 : ℕ) : ℤ)) :=
  ⟨by decide, by decide, effective_threads_amended 8 3 (by decide) (by decide)⟩

/-- C10: the run coordinator clamps its configuration inputs before use:
pages to at least 1, the per-request delay to at least 0, and — in
manual-quota mode — quota to at least 1 and used to at least 0; hence the
projected-percentage denominator is nonzero and `credits_needed` is at
least the task count even for a zero or negative `--pages`. -/
theorem config_clamps (args : Args) (env : Env) (n : ℕ) :
    1 ≤ clampPages args.pages ∧ 0 ≤ clampDelay args.delay ∧
    1 ≤ clampQuota args.quota ∧ 0 ≤ clampUsed args.used ∧
    ((clampQuota args.quota : ℤ) : ℚ) ≠ 0 ∧
    (n : ℤ) ≤ creditsNeededCalc n args.pages ∧
    quotaStage { args with autoQuota := false } env
      = .ok (clampQuota args.quota, clampUsed args.used) := by
  have hq : (1 : ℤ) ≤ clampQuota args.quota := le_max_left _ _
  refine ⟨le_max_left _ _, le_max_left _ _, hq, le_max_left _ _, ?_, ?_, ?_⟩
  · have : (0 : ℤ) < clampQuota args.quota := lt_of_lt_of_le one_pos hq
    exact_mod_cast this.ne'
  · rw [creditsNeededCalc]
    calc (n : ℤ) = (n : ℤ) * 1 := (mul_one _).symm
    _ ≤ (n : ℤ) * clampPages args.pages := by
        exact mul_le_mul_of_nonneg_left (le_max_left _ _) (Int.natCast_nonneg n)
  · rfl

theorem config_clamps_witness :
    1 ≤ clampPages (-3) ∧ 0 ≤ clampDelay (-1) ∧
    1 ≤ clampQuota (-7) ∧ 0 ≤ clampUsed (-2) ∧
    ((clampQuota (-7) : ℤ) : ℚ) ≠ 0 ∧
    ((4 : ℕ) : ℤ) ≤ creditsNeededCalc 4 (-3) ∧
    quotaStage { Args.mk "output" 8 (-3) (-1) (-7) (-2) 0 false false with autoQuota := false }
        (Env.mk none none true (fun _ _ _ => none) [])
      = .ok (clampQuota (-7), clampUsed (-2)) :=
  config_clamps (Args.mk "output" 8 (-3) (-1) (-7) (-2) 0 false false)
    (Env.mk none none true (fun _ _ _ => none) []) 4

end DorkingQuack
